import Mathlib

/-!
Verification of the `color` repository (HSL/RGB color parsing and conversion).

The Rust sources are shallowly embedded over ℚ: every `f32` value is modelled
as an exact rational, with the explicit rounding steps of the source
(`f32::round`, `round_to_one_decimal_place`) modelled exactly, panicking code
paths (`unreachable!`, `unimplemented!`, `todo!`) modelled as `Option.none`,
and Rust primitives (`clamp`, float `%`, `f32::EPSILON`) given their exact
rational counterparts.
-/

set_option maxRecDepth 4000

attribute [local semireducible] Rat.add Rat.mul Rat.sub Rat.inv Rat.ofScientific

namespace ColorRepo

/-- Rust's `f32::EPSILON` (2⁻²³) as an exact rational. -/
def f32EPSILON : ℚ := 1 / 2 ^ 23

/-- Rust's `f32::clamp(lo, hi)`: `if x < lo { lo } else if x > hi { hi } else { x }`. -/
def rustClamp (x lo hi : ℚ) : ℚ := if x < lo then lo else if x > hi then hi else x

/-- Rust's `f32::round`: round to nearest integer, ties away from zero. -/
def rustRound (x : ℚ) : ℚ :=
  if x < 0 then -(((Int.floor (-x + 1 / 2) : ℤ) : ℚ)) else ((Int.floor (x + 1 / 2) : ℤ) : ℚ)

/-- Truncation of a rational towards zero (used to model float `%`). -/
def truncQ (x : ℚ) : ℤ := if x < 0 then Int.ceil x else Int.floor x

/-- Rust's `%` on floats (`fmod`): truncated remainder, sign of the dividend. -/
def rustRem (a b : ℚ) : ℚ := a - b * ((truncQ (a / b) : ℤ) : ℚ)

/-- `round_to_one_decimal_place` from `src/colors.rs`: `(n * 10.0).round() / 10.0`. -/
def round_to_one_decimal_place (n : ℚ) : ℚ := rustRound (n * 10) / 10

/-- `rgb_to_hsl` from `src/colors.rs` (the converter used by `Color`): clamps the
channels, normalizes to [0,1], and selects the hue branch with the
`(cmax - channel).abs() < f32::EPSILON` comparisons of the source. -/
def rgb_to_hsl (red green blue alpha : ℚ) : ℚ × ℚ × ℚ × ℚ :=
  let red := rustClamp red 0 255 / 255
  let green := rustClamp green 0 255 / 255
  let blue := rustClamp blue 0 255 / 255
  let alpha := rustClamp alpha 0 1
  let cmin := min (min red green) blue
  let cmax := max (max red green) blue
  let delta := cmax - cmin
  let hue0 :=
    if delta = 0 then 0
    else if |cmax - red| < f32EPSILON then rustRem ((green - blue) / delta) 6
    else if |cmax - green| < f32EPSILON then (blue - red) / delta + 2
    else (red - green) / delta + 4
  let hue1 := rustRound (hue0 * 60)
  let hue := if hue1 < 0 then hue1 + 360 else hue1
  let luminosity := (cmax + cmin) / 2
  let saturation := if delta = 0 then 0 else delta / (1 - |2 * luminosity - 1|)
  (round_to_one_decimal_place hue, round_to_one_decimal_place (saturation * 100),
    round_to_one_decimal_place (luminosity * 100), alpha)

/-- The sextant selection `if`-chain of `hsl_to_rgb` in `src/colors.rs`, returning
the pre-lightness `(red, green, blue)` triple; the source's
`unreachable!("HSL hue is clamped to 0..=360")` arm is modelled as `none`. -/
def sextant (hue chroma x : ℚ) : Option (ℚ × ℚ × ℚ) :=
  if 0 ≤ hue ∧ hue < 60 then some (chroma, x, 0)
  else if 60 ≤ hue ∧ hue < 120 then some (x, chroma, 0)
  else if 120 ≤ hue ∧ hue < 180 then some (0, chroma, x)
  else if 180 ≤ hue ∧ hue < 240 then some (0, x, chroma)
  else if 240 ≤ hue ∧ hue < 300 then some (x, 0, chroma)
  else if 300 ≤ hue ∧ hue ≤ 360 then some (chroma, 0, x)
  else none

/-- `hsl_to_rgb` from `src/colors.rs`: clamps hue/saturation/luminosity/alpha,
computes chroma/x/lightness, selects a sextant and rounds each channel. -/
def hsl_to_rgb (hue saturation luminosity alpha : ℚ) : Option (ℚ × ℚ × ℚ × ℚ) :=
  let hue := rustClamp hue 0 360
  let saturation := rustClamp saturation 0 100 / 100
  let luminosity := rustClamp luminosity 0 100 / 100
  let alpha := rustClamp alpha 0 1
  let chroma := (1 - |2 * luminosity - 1|) * saturation
  let x := chroma * (1 - |rustRem (hue / 60) 2 - 1|)
  let lightness := luminosity - chroma / 2
  (sextant hue chroma x).map (fun rgb =>
    (rustRound ((rgb.1 + lightness) * 255), rustRound ((rgb.2.1 + lightness) * 255),
      rustRound ((rgb.2.2 + lightness) * 255), alpha))

/-- `ColorType` from `src/colors.rs`. -/
inductive ColorType
  | Hsl
  | Rgb
  | Hex
deriving DecidableEq

/-- `Color` from `src/colors.rs`: RGB channel data plus a marker of the
representation the value was parsed/constructed as. -/
structure Color where
  parsed_as : ColorType
  red : ℚ
  green : ℚ
  blue : ℚ
  alpha : ℚ
deriving DecidableEq

/-- `Color::from_rgb`: clamps each channel to [0,255] and alpha to [0,1]. -/
def Color.from_rgb (red green blue alpha : ℚ) : Color :=
  { parsed_as := ColorType.Rgb
    red := rustClamp red 0 255
    green := rustClamp green 0 255
    blue := rustClamp blue 0 255
    alpha := rustClamp alpha 0 1 }

/-- `Color::from_hsl`: converts through `hsl_to_rgb`, then clamps each field.
The `none` case occurs only if the converter's unreachable arm is hit. -/
def Color.from_hsl (hue saturation luminosity alpha : ℚ) : Option Color :=
  (hsl_to_rgb hue saturation luminosity alpha).map fun rgba =>
    { parsed_as := ColorType.Hsl
      red := rustClamp rgba.1 0 255
      green := rustClamp rgba.2.1 0 255
      blue := rustClamp rgba.2.2.1 0 255
      alpha := rustClamp rgba.2.2.2 0 1 }

/-- `Color::from_hex` from `src/colors.rs`: its body is `todo!()`, an
unconditional panic, modelled as `none` for every input. -/
def Color.from_hex (_hex : String) : Option Color := none

/-- `Color::rgb`: returns the stored channels and alpha. -/
def Color.rgb (c : Color) : ℚ × ℚ × ℚ × ℚ := (c.red, c.green, c.blue, c.alpha)

/-- `Color::hsl`: converts the stored channels through `rgb_to_hsl`. -/
def Color.hsl (c : Color) : ℚ × ℚ × ℚ × ℚ := rgb_to_hsl c.red c.green c.blue c.alpha

/-- The sixteen uppercase hex digits. -/
def hexDigits : List Char :=
  ['0', '1', '2', '3', '4', '5', '6', '7', '8', '9', 'A', 'B', 'C', 'D', 'E', 'F']

/-- Fuel-bounded uppercase hex digit list of a natural number (most significant
first); 16 digits of fuel cover every `i64` value printed by the source. -/
def natHexAux : ℕ → ℕ → List Char
  | 0, _ => []
  | _ + 1, 0 => []
  | fuel + 1, n => natHexAux fuel (n / 16) ++ [hexDigits.getD (n % 16) '0']

/-- Rust's `format!("{:02X}", z)` for an `i64`: uppercase hex, zero-padded to
width 2; a negative value prints as its 64-bit two's complement. -/
def formatHex02 (z : ℤ) : List Char :=
  let n : ℕ := if z < 0 then (2 ^ 64 + z).toNat else z.toNat
  let ds := natHexAux 16 n
  if ds.length = 0 then ['0', '0'] else if ds.length = 1 then '0' :: ds else ds

/-- `rgb_to_hex` from `src/colors.rs`: `#RRGGBB`, or `#RRGGBBAA` when
`(alpha - 1.0).abs() >= f32::EPSILON`. -/
def rgb_to_hex (red green blue alpha : ℚ) : String :=
  if |alpha - 1| < f32EPSILON then
    String.mk ('#' :: formatHex02 (truncQ (rustRound red)) ++
      formatHex02 (truncQ (rustRound green)) ++ formatHex02 (truncQ (rustRound blue)))
  else
    String.mk ('#' :: formatHex02 (truncQ (rustRound red)) ++
      formatHex02 (truncQ (rustRound green)) ++ formatHex02 (truncQ (rustRound blue)) ++
      formatHex02 (truncQ (rustRound (alpha * 255))))

/-- `Color::hex_string`. -/
def Color.hex_string (c : Color) : String :=
  rgb_to_hex c.rgb.1 c.rgb.2.1 c.rgb.2.2.1 c.rgb.2.2.2

/-! ## The nom-based parser of `src/parse.rs`

A nom parser `Fn(&str) -> IResult<&str, T>` is embedded as
`List Char → Option (List Char × T)`: `none` is a parse error, `some (rest, v)`
is success with unconsumed input `rest`. The combinators below model the nom
combinators used by the source (`tag`, `space0`, `space1`, `alt`, `opt`, `map`,
and sequencing); `alt` tries its alternatives left to right with no
backtracking into a committed alternative, exactly as nom's complete parsers. -/

/-- Embedding of nom parsers over the remaining input. -/
def P (α : Type) : Type := List Char → Option (List Char × α)

/-- Sequencing of two parsers (`tuple`/`preceded`/`terminated`/`delimited`). -/
def pseq {α β : Type} (p : P α) (f : α → P β) : P β := fun s =>
  match p s with
  | none => none
  | some (rest, a) => f a rest

/-- The parser returning a value without consuming input. -/
def pret {α : Type} (a : α) : P α := fun s => some (s, a)

/-- nom's `map`. -/
def pmap {α β : Type} (f : α → β) (p : P α) : P β := pseq p fun a => pret (f a)

/-- nom's `alt` of two parsers: the second runs only if the first errors. -/
def palt {α : Type} (p q : P α) : P α := fun s =>
  match p s with
  | none => q s
  | r => r

/-- nom's `opt`: an error becomes `none` with no input consumed. -/
def popt {α : Type} (p : P α) : P (Option α) := fun s =>
  match p s with
  | none => some (s, none)
  | some (rest, a) => some (rest, some a)

/-- nom's `tag`: matches a literal prefix. -/
def ptag (t : String) : P String := fun s =>
  if t.toList.isPrefixOf s then some (s.drop t.toList.length, t) else none

/-- nom's `eof`. -/
def peof : P Unit := fun s =>
  match s with
  | [] => some ([], ())
  | _ => none

/-- The characters accepted by nom's `space0`/`space1` (space and tab). -/
def isSpaceChar (c : Char) : Bool := c = ' ' || c = '\t'

/-- nom's `space0`. -/
def pspace0 : P Unit := fun s => some (s.dropWhile isSpaceChar, ())

/-- nom's `space1`: at least one space or tab. -/
def pspace1 : P Unit := fun s =>
  match s with
  | [] => none
  | c :: rest => if isSpaceChar c then some (rest.dropWhile isSpaceChar, ()) else none

/-- Numeric value of a list of decimal digit characters. -/
def digitsToNat (ds : List Char) : ℕ :=
  ds.foldl (fun a c => a * 10 + (c.toNat - '0'.toNat)) 0

/-- nom's `digit1`: one or more ASCII digits. -/
def pdigit1 : P (List Char) := fun s =>
  let ds := s.takeWhile Char.isDigit
  if ds.isEmpty then none else some (s.drop ds.length, ds)

/-- The optional exponent part of nom's float grammar: `e`/`E`, an optional
sign, then at least one digit. A malformed exponent suffix is left unconsumed
here; nom versions differ on that corner (newer ones hard-fail it), and none of
the grammar's inputs in this development contain an exponent. -/
def pexponent : P ℤ := fun s =>
  match s with
  | c :: r =>
    if c = 'e' || c = 'E' then
      let signAndRest : ℤ × List Char :=
        match r with
        | '+' :: r2 => (1, r2)
        | '-' :: r2 => (-1, r2)
        | r2 => (1, r2)
      match pdigit1 signAndRest.2 with
      | some (r2, ds) => some (r2, signAndRest.1 * (digitsToNat ds : ℤ))
      | none => none
    else none
  | [] => none

/-- nom's `number::complete::float`: optional sign, then `digit+ (. digit*)?`
or `. digit+`, then an optional exponent; the value is the exact rational the
decimal literal denotes. (The `nan`/`inf` special forms of nom's recognizer are
omitted: they are not representable in ℚ and no claim exercises them.) -/
def pfloat : P ℚ := fun s =>
  let signAndRest : ℚ × List Char :=
    match s with
    | '+' :: r => (1, r)
    | '-' :: r => (-1, r)
    | r => (1, r)
  let mantissa : Option (List Char × ℚ) :=
    match pdigit1 signAndRest.2 with
    | some (r, ds) =>
      match r with
      | '.' :: r2 =>
        let fs := r2.takeWhile Char.isDigit
        some (r2.drop fs.length,
          (digitsToNat ds : ℚ) + (digitsToNat fs : ℚ) / 10 ^ fs.length)
      | _ => some (r, (digitsToNat ds : ℚ))
    | none =>
      match signAndRest.2 with
      | '.' :: r2 =>
        match pdigit1 r2 with
        | some (r3, fs) => some (r3, (digitsToNat fs : ℚ) / 10 ^ fs.length)
        | none => none
      | _ => none
  match mantissa with
  | none => none
  | some (r, m) =>
    match pexponent r with
    | some (r2, e) => some (r2, signAndRest.1 * m * 10 ^ e)
    | none => some (r, signAndRest.1 * m)

/-- `percentage` from `src/parse.rs`: a float immediately followed by `%`. -/
def percentage : P ℚ := pseq pfloat fun v => pseq (ptag "%") fun _ => pret v

/-- `Angle` from `src/parse.rs`. -/
inductive Angle
  | Degrees (v : ℚ)
  | Radians (v : ℚ)
  | Gradians (v : ℚ)
  | Turns (v : ℚ)
deriving DecidableEq

/-- The exact rational value of the `f32` constant 180/π by which Rust's
`f32::to_degrees` multiplies. -/
def degreesPerRadian : ℚ := 15019745 / 262144

/-- `Angle::to_degrees` from `src/parse.rs`; the `Gradians` arm is
`unimplemented!()` — an unconditional panic, modelled as `none`. -/
def Angle.to_degrees : Angle → Option ℚ
  | .Degrees deg => some deg
  | .Radians rad => some (rad * degreesPerRadian)
  | .Gradians _ => none
  | .Turns turns => some (turns * 360)

/-- `angle` from `src/parse.rs`: a float with an optional unit suffix,
defaulting to degrees; the source's `unreachable!()` catch-all arm is modelled
as `none`. -/
def angle : P Angle :=
  pseq pfloat fun val =>
  pseq (popt (palt (ptag "deg") (palt (ptag "rad") (palt (ptag "grad") (ptag "turn"))))) fun unit =>
  match unit with
  | none => pret (Angle.Degrees val)
  | some "deg" => pret (Angle.Degrees val)
  | some "rad" => pret (Angle.Radians val)
  | some "grad" => pret (Angle.Gradians val)
  | some "turn" => pret (Angle.Turns val)
  | some _ => fun _ => none

/-- Modelled from the spec: the `crate::colors::HslColor` that `src/parse.rs`
imports is not under src/ (src/lib.rs only holds an older, unclamped crate-root
variant without alpha). Per spec §3 its fields are hue ∈ [0,360],
saturation/luminosity ∈ [0,100], alpha ∈ [0,1], clamped on construction, as the
parser tests in `src/parse.rs` require. -/
structure HslColor where
  hue : ℚ
  saturation : ℚ
  luminosity : ℚ
  alpha : ℚ
deriving DecidableEq

/-- Modelled from the spec: `HslColor::new` clamps each component to its range
and defaults alpha to 1. -/
def HslColor.new (h s l : ℚ) : HslColor :=
  { hue := rustClamp h 0 360
    saturation := rustClamp s 0 100
    luminosity := rustClamp l 0 100
    alpha := 1 }

/-- Modelled from the spec: `HslColor::hsla` additionally clamps alpha to [0,1]. -/
def HslColor.hsla (h s l a : ℚ) : HslColor :=
  { hue := rustClamp h 0 360
    saturation := rustClamp s 0 100
    luminosity := rustClamp l 0 100
    alpha := rustClamp a 0 1 }

/-- Modelled from the spec: the `crate::colors::RgbColor` that `src/parse.rs`
imports is not under src/ (src/lib.rs only holds an older `u16` variant).
Per spec §3 its channels are clamped to [0,255] and alpha to [0,1]. -/
structure RgbColor where
  red : ℚ
  green : ℚ
  blue : ℚ
  alpha : ℚ
deriving DecidableEq

/-- Modelled from the spec: `RgbColor::new` clamps each channel and defaults
alpha to 1. -/
def RgbColor.new (r g b : ℚ) : RgbColor :=
  { red := rustClamp r 0 255
    green := rustClamp g 0 255
    blue := rustClamp b 0 255
    alpha := 1 }

/-- Modelled from the spec: `RgbColor::rgba` additionally clamps alpha. -/
def RgbColor.rgba (r g b a : ℚ) : RgbColor :=
  { red := rustClamp r 0 255
    green := rustClamp g 0 255
    blue := rustClamp b 0 255
    alpha := rustClamp a 0 1 }

/-- The comma separator `delimited(space0, tag(","), space0)` of `src/parse.rs`. -/
def commaSep : P Unit := pseq pspace0 fun _ => pseq (ptag ",") fun _ => pspace0

/-- The slash alpha separator `delimited(space0, tag("/"), space0)`. -/
def slashSep : P Unit := pseq pspace0 fun _ => pseq (ptag "/") fun _ => pspace0

/-- The alpha value alternative `alt((map(percentage, |p| p / 100.0), float))`. -/
def alphaValue : P ℚ := palt (pmap (fun p => p / 100) percentage) pfloat

/-- The `parser_commas` alternative of `hsl_values`. -/
def hslParserCommas : P (Angle × ℚ × ℚ × Option ℚ) :=
  pseq pspace0 fun _ =>
  pseq angle fun a =>
  pseq commaSep fun _ =>
  pseq (palt percentage pfloat) fun sat =>
  pseq commaSep fun _ =>
  pseq (palt percentage pfloat) fun lum =>
  pseq (popt (pseq commaSep fun _ => alphaValue)) fun al =>
  pseq pspace0 fun _ =>
  pret (a, sat, lum, al)

/-- The `parser_spaces` alternative of `hsl_values`. -/
def hslParserSpaces : P (Angle × ℚ × ℚ × Option ℚ) :=
  pseq pspace0 fun _ =>
  pseq angle fun a =>
  pseq pspace1 fun _ =>
  pseq (palt percentage pfloat) fun sat =>
  pseq pspace1 fun _ =>
  pseq (palt percentage pfloat) fun lum =>
  pseq (popt (pseq slashSep fun _ => alphaValue)) fun al =>
  pseq pspace0 fun _ =>
  pret (a, sat, lum, al)

/-- `hsl_values` from `src/parse.rs`: the comma-style parse is attempted first,
then the space-style parse. -/
def hsl_values : P (Angle × ℚ × ℚ × Option ℚ) := palt hslParserCommas hslParserSpaces

/-- `hsl_color` from `src/parse.rs`: `hsl`/`hsla`, parenthesized values, then
`HslColor` construction via `Angle::to_degrees` (whose gradians panic is
modelled as `none`). -/
def hsl_color : P HslColor := fun s =>
  match (pseq (palt (ptag "hsla") (ptag "hsl")) fun _ =>
         pseq (ptag "(") fun _ =>
         pseq hsl_values fun v =>
         pseq (ptag ")") fun _ =>
         pret v) s with
  | none => none
  | some (rest, (a, sat, lum, alpha)) =>
    match a.to_degrees with
    | none => none
    | some deg =>
      some (rest, match alpha with
        | some al => HslColor.hsla deg sat lum al
        | none => HslColor.new deg sat lum)

/-- `percentage_to_color_255` from `src/parse.rs`. -/
def percentage_to_color_255 (input : ℚ) : ℚ := input / 100 * 255

/-- `comma_separated_percentages` from `src/parse.rs`. -/
def comma_separated_percentages : P (ℚ × ℚ × ℚ × Option ℚ) :=
  pseq percentage fun p1 =>
  pseq commaSep fun _ =>
  pseq percentage fun p2 =>
  pseq commaSep fun _ =>
  pseq percentage fun p3 =>
  pseq (popt (pseq commaSep fun _ => percentage)) fun p4 =>
  pret (percentage_to_color_255 p1, percentage_to_color_255 p2,
    percentage_to_color_255 p3, p4.map (fun x => x / 100))

/-- `space_separated_percentages` from `src/parse.rs`. -/
def space_separated_percentages : P (ℚ × ℚ × ℚ × Option ℚ) :=
  pseq percentage fun p1 =>
  pseq pspace1 fun _ =>
  pseq percentage fun p2 =>
  pseq pspace1 fun _ =>
  pseq percentage fun p3 =>
  pseq (popt (pseq slashSep fun _ => percentage)) fun p4 =>
  pret (percentage_to_color_255 p1, percentage_to_color_255 p2,
    percentage_to_color_255 p3, p4.map (fun x => x / 100))

/-- `comma_separated_floats` from `src/parse.rs`. -/
def comma_separated_floats : P (ℚ × ℚ × ℚ × Option ℚ) :=
  pseq pfloat fun p1 =>
  pseq commaSep fun _ =>
  pseq pfloat fun p2 =>
  pseq commaSep fun _ =>
  pseq pfloat fun p3 =>
  pseq (popt (pseq commaSep fun _ => pfloat)) fun p4 =>
  pret (p1, p2, p3, p4)

/-- `space_separated_floats` from `src/parse.rs`. -/
def space_separated_floats : P (ℚ × ℚ × ℚ × Option ℚ) :=
  pseq pfloat fun p1 =>
  pseq pspace1 fun _ =>
  pseq pfloat fun p2 =>
  pseq pspace1 fun _ =>
  pseq pfloat fun p3 =>
  pseq (popt (pseq slashSep fun _ => pfloat)) fun p4 =>
  pret (p1, p2, p3, p4)

/-- `rgb_values` from `src/parse.rs`: the four channel-list styles in the
source's `alt` order. -/
def rgb_values : P (ℚ × ℚ × ℚ × Option ℚ) :=
  palt comma_separated_percentages
    (palt comma_separated_floats
      (palt space_separated_percentages space_separated_floats))

/-- `rgb_color` from `src/parse.rs`. -/
def rgb_color : P RgbColor :=
  pseq (palt (ptag "rgba") (ptag "rgb")) fun _ =>
  pseq (ptag "(") fun _ =>
  pseq rgb_values fun v =>
  pseq (ptag ")") fun _ =>
  pret (match v.2.2.2 with
    | some a => RgbColor.rgba v.1 v.2.1 v.2.2.1 a
    | none => RgbColor.new v.1 v.2.1 v.2.2.1)

/-- `OldColor` from `src/parse.rs`'s import of `crate::colors` (its declaration
is not under src/): the tagged result of `parse_color`. -/
inductive OldColor
  | Hsl (c : HslColor)
  | Rgb (c : RgbColor)
deriving DecidableEq

/-- `parse_color` from `src/parse.rs`: an HSL or RGB color followed by end of
input. -/
def parse_color : P OldColor :=
  pseq (palt (pmap OldColor.Hsl hsl_color) (pmap OldColor.Rgb rgb_color)) fun c =>
  pseq peof fun _ =>
  pret c

/-- Modelled from the spec: how the `FromStr` impl in `src/colors.rs` turns the
parser's result into a `Color` is not under src/ (the `parse_color` under src/
still returns `OldColor`); per spec §3 the Color is normalized to clamped RGB
plus alpha through the construction functions. -/
def OldColor.toColor : OldColor → Option Color
  | .Hsl c => Color.from_hsl c.hue c.saturation c.luminosity c.alpha
  | .Rgb c => some (Color.from_rgb c.red c.green c.blue c.alpha)

/-- `impl FromStr for Color` from `src/colors.rs`: parse, then return the color
(`Err` modelled as `none`). -/
def colorFromStr (s : String) : Option Color :=
  match parse_color s.toList with
  | none => none
  | some (_, c) => c.toColor

/-- The range invariant of spec §3 for `Color`: channels in [0,255], alpha in
[0,1]. -/
def Color.inRange (c : Color) : Prop :=
  0 ≤ c.red ∧ c.red ≤ 255 ∧ 0 ≤ c.green ∧ c.green ≤ 255 ∧
    0 ≤ c.blue ∧ c.blue ≤ 255 ∧ 0 ≤ c.alpha ∧ c.alpha ≤ 1

/-- The range invariant of spec §3 for `HslColor`: hue in [0,360],
saturation/luminosity in [0,100], alpha in [0,1]. -/
def HslColor.inRange (c : HslColor) : Prop :=
  0 ≤ c.hue ∧ c.hue ≤ 360 ∧ 0 ≤ c.saturation ∧ c.saturation ≤ 100 ∧
    0 ≤ c.luminosity ∧ c.luminosity ≤ 100 ∧ 0 ≤ c.alpha ∧ c.alpha ≤ 1

/-- The RGB→HSL conversion as the spec's words describe the hue-branch
selection for claim C9: identical to the source's `rgb_to_hsl` except that the
two `cmax` tests use exact equality instead of the source's
`(cmax - channel).abs() < f32::EPSILON`; defined only to be compared against
the embedded source function. -/
def rgb_to_hsl_exact (red green blue alpha : ℚ) : ℚ × ℚ × ℚ × ℚ :=
  let red := rustClamp red 0 255 / 255
  let green := rustClamp green 0 255 / 255
  let blue := rustClamp blue 0 255 / 255
  let alpha := rustClamp alpha 0 1
  let cmin := min (min red green) blue
  let cmax := max (max red green) blue
  let delta := cmax - cmin
  let hue0 :=
    if delta = 0 then 0
    else if cmax = red then rustRem ((green - blue) / delta) 6
    else if cmax = green then (blue - red) / delta + 2
    else (red - green) / delta + 4
  let hue1 := rustRound (hue0 * 60)
  let hue := if hue1 < 0 then hue1 + 360 else hue1
  let luminosity := (cmax + cmin) / 2
  let saturation := if delta = 0 then 0 else delta / (1 - |2 * luminosity - 1|)
  (round_to_one_decimal_place hue, round_to_one_decimal_place (saturation * 100),
    round_to_one_decimal_place (luminosity * 100), alpha)

end ColorRepo

namespace ColorRepo

example : rgb_to_hsl 23 11 33 1 = (273, 50, 8.6, 1) := by decide
example : hsl_to_rgb 273 50 8.6 1 = some (23, 11, 33, 1) := by decide
example : rgb_to_hsl 255 2 0 1 = (0, 100, 50, 1) := by decide
example : hsl_to_rgb 0 100 50 1 = some (255, 0, 0, 1) := by decide
example : hsl_to_rgb 122 33 12 0.4 = some (21, 41, 21, 0.4) := by decide
example : (Color.from_rgb 23 11 33 1).hex_string = "#170B21" := by decide
example : (Color.from_rgb 23 11 33 0.4).hex_string = "#170B2166" := by
  decide

-- parser fixtures from the source's own test module
example : hsl_values "32,11.22,04oeeooe".toList =
    some ("oeeooe".toList, (Angle.Degrees 32, 11.22, 4, none)) := by
  decide
example : hsl_values "32deg   , 11.22,04oeeooe".toList =
    some ("oeeooe".toList, (Angle.Degrees 32, 11.22, 4, none)) := by
  decide
example : hsl_values "360rad 12% 34".toList =
    some ([], (Angle.Radians 360, 12, 34, none)) := by decide
example : hsl_values "354rad 12%, 34".toList = none := by decide
example : hsl_values "354rad, 12% 34".toList = none := by decide
example : hsl_values "32 11.22 4.0 / 50%".toList =
    some ([], (Angle.Degrees 32, 11.22, 4, some 0.5)) := by decide
example : hsl_color "hsl(212, 12, 24.2)".toList =
    some ([], HslColor.new 212 12 24.2) := by decide
example : hsl_color "hsl(2turn 24.3 4%)".toList =
    some ([], HslColor.new 360 24.3 4) := by decide
example : hsl_color "hsl(2turn, -24.3, 101%)".toList =
    some ([], HslColor.new 360 0 100) := by decide
example : hsl_color "hsla(212 12 24.2 / 30%)".toList =
    some ([], HslColor.hsla 212 12 24.2 0.3) := by decide
example : hsl_color "hsl(21deg, 32.2, 32% / 32%".toList = none := by
  decide
example : rgb_values "32%,11.22%,04%oeeooe".toList =
    some ("oeeooe".toList, (81.6, 28.611, 10.2, none)) := by decide
example : rgb_values "32% 11.22% 04%/7.3%oeeooe".toList =
    some ("oeeooe".toList, (81.6, 28.611, 10.2, some 0.073)) := by
  decide
example : rgb_values "32, 2%, 225".toList = none := by decide
example : rgb_values "32%, 2%, 225".toList = none := by decide
example : rgb_values "32%, 2%, 225, 44%".toList = none := by decide
example : parse_color "hsl(21deg, 32.2, 32% / 32%)".toList = none := by
  decide
example : parse_color "rgb(32%, 2%, 225)".toList = none := by decide
example : colorFromStr "rgb(1, 2, 3)" = some (Color.from_rgb 1 2 3 1) := by
  decide

/-! ## Helper lemmas -/

theorem rustClamp_mem {lo hi : ℚ} (x : ℚ) (h : lo ≤ hi) :
    lo ≤ rustClamp x lo hi ∧ rustClamp x lo hi ≤ hi := by
  unfold rustClamp
  split_ifs with h1 h2 <;> constructor <;> linarith

theorem rustClamp_eq_self {lo hi : ℚ} (x : ℚ) (h0 : lo ≤ x) (h1 : x ≤ hi) :
    rustClamp x lo hi = x := by
  unfold rustClamp
  split_ifs with ha hb <;> linarith

theorem sextant_isSome {h : ℚ} (c x : ℚ) (h0 : 0 ≤ h) (h360 : h ≤ 360) :
    (sextant h c x).isSome = true := by
  unfold sextant
  split_ifs with h1 h2 h3 h4 h5 h6 <;> try rfl
  exfalso
  push_neg at h1 h2 h3 h4 h5 h6
  have k1 : 60 ≤ h := h1 h0
  have k2 : 120 ≤ h := h2 k1
  have k3 : 180 ≤ h := h3 k2
  have k4 : 240 ≤ h := h4 k3
  have k5 : 300 ≤ h := h5 k4
  have k6 : 360 < h := h6 k5
  linarith

theorem hsl_to_rgb_isSome (h s l a : ℚ) : (hsl_to_rgb h s l a).isSome = true := by
  unfold hsl_to_rgb
  simp only [Option.isSome_map']
  exact sextant_isSome _ _ (rustClamp_mem h (by norm_num)).1 (rustClamp_mem h (by norm_num)).2

/-! ## Claim theorems -/

/-- C1, counterexample: the round trip is not within ±1 for every integer RGB
triple. At RGB(255,2,0) the converter yields HSL(0,100,50), which converts back
to RGB(255,0,0): the green channel moves by 2. -/
theorem roundtrip_pm1_counterexample :
    (let hsl := rgb_to_hsl 255 2 0 1
     hsl_to_rgb hsl.1 hsl.2.1 hsl.2.2.1 hsl.2.2.2) = some (255, 0, 0, 1) ∧
    ¬ (|(0 : ℚ) - 2| ≤ 1) := by decide

/-- C1, amended: the round trip is exact for the fixture RGB(23,11,33), which
converts to exactly HSL(273,50,8.6) and back to RGB(23,11,33); but the ±1
per-channel bound does not hold for every integer triple — at RGB(255,2,0) the
round trip returns RGB(255,0,0), a deviation of 2 in the green channel. -/
theorem roundtrip_fixture_exact :
    rgb_to_hsl 23 11 33 1 = (273, 50, 8.6, 1) ∧
    hsl_to_rgb 273 50 8.6 1 = some (23, 11, 33, 1) ∧
    (let hsl := rgb_to_hsl 255 2 0 1
     hsl_to_rgb hsl.1 hsl.2.1 hsl.2.2.1 hsl.2.2.2) = some (255, 0, 0, 1) := by decide

/-- C2: the exact conversion fixtures. `Color::from_rgb(23,11,33,1.0).hsl()`
returns exactly (273.0, 50.0, 8.6, 1.0), and `Color::from_hsl(122,33,12,0.4).rgb()`
returns exactly (21.0, 41.0, 21.0, 0.4). -/
theorem conversion_fixtures :
    (Color.from_rgb 23 11 33 1).hsl = (273, 50, 8.6, 1) ∧
    (Color.from_hsl 122 33 12 0.4).map Color.rgb = some (21, 41, 21, 0.4) := by decide

/-- C7: converting a gradian-unit angle to degrees is the `unimplemented!()`
panic path (modelled as `none`) for every value: it never returns a numeric
result and is never silently treated as degrees. -/
theorem gradians_never_convert (v : ℚ) : (Angle.Gradians v).to_degrees = none := rfl

/-- C10: `Color::from_hex` is an unconditional `todo!()` panic (modelled as
`none`) for every input string, even though `ColorType::Hex` exists and hex
output formatting works (`from_rgb(23,11,33,1)` formats as "#170B21"). -/
theorem from_hex_never_returns (s : String) :
    Color.from_hex s = none ∧
    (Color.from_rgb 23 11 33 1).parsed_as ≠ ColorType.Hex ∧
    (Color.from_rgb 23 11 33 1).hex_string = "#170B21" :=
  ⟨rfl, by decide, by decide⟩

/-- C8: hue exactly 360 resolves in HSL→RGB conversion. The conversion never
hits its unreachable arm for any input at all (hue is clamped to [0,360],
never wrapped), and for every hue in the closed final interval [300,360] the
sextant selection returns the (chroma, 0, x) branch. -/
theorem hue360_resolves :
    (∀ h s l a : ℚ, (hsl_to_rgb h s l a).isSome = true) ∧
    (∀ h c x : ℚ, 300 ≤ h → h ≤ 360 → sextant h c x = some (c, 0, x)) := by
  refine ⟨hsl_to_rgb_isSome, ?_⟩
  intro h c x h300 h360
  unfold sextant
  split_ifs with h1 h2 h3 h4 h5 h6
  · exact absurd h1.2 (by linarith)
  · exact absurd h2.2 (by linarith)
  · exact absurd h3.2 (by linarith)
  · exact absurd h4.2 (by linarith)
  · exact absurd h5.2 (by linarith)
  · rfl
  · exact absurd (And.intro h300 h360) h6

/-- C8, witness: at hue 360 the conversion succeeds and the sextant selects the
(chroma, 0, x) branch. -/
theorem hue360_resolves_witness :
    (hsl_to_rgb 360 50 50 1).isSome = true ∧ sextant 360 5 7 = some (5, 0, 7) :=
  ⟨hue360_resolves.1 360 50 50 1, hue360_resolves.2 360 5 7 (by norm_num) (by norm_num)⟩

theorem from_rgb_inRange (r g b a : ℚ) : (Color.from_rgb r g b a).inRange :=
  ⟨(rustClamp_mem _ (by norm_num)).1, (rustClamp_mem _ (by norm_num)).2,
   (rustClamp_mem _ (by norm_num)).1, (rustClamp_mem _ (by norm_num)).2,
   (rustClamp_mem _ (by norm_num)).1, (rustClamp_mem _ (by norm_num)).2,
   (rustClamp_mem _ (by norm_num)).1, (rustClamp_mem _ (by norm_num)).2⟩

theorem from_hsl_inRange (hu s l a : ℚ) (c : Color)
    (h : Color.from_hsl hu s l a = some c) : c.inRange := by
  unfold Color.from_hsl at h
  obtain ⟨v, _, hc⟩ := Option.map_eq_some'.mp h
  subst hc
  exact ⟨(rustClamp_mem _ (by norm_num)).1, (rustClamp_mem _ (by norm_num)).2,
    (rustClamp_mem _ (by norm_num)).1, (rustClamp_mem _ (by norm_num)).2,
    (rustClamp_mem _ (by norm_num)).1, (rustClamp_mem _ (by norm_num)).2,
    (rustClamp_mem _ (by norm_num)).1, (rustClamp_mem _ (by norm_num)).2⟩

theorem toColor_inRange (oc : OldColor) (c : Color) (h : oc.toColor = some c) :
    c.inRange := by
  cases oc with
  | Hsl hc2 => exact from_hsl_inRange _ _ _ _ _ h
  | Rgb rc =>
    simp only [OldColor.toColor, Option.some_inj] at h
    subst h
    exact from_rgb_inRange _ _ _ _

theorem colorFromStr_inRange (str : String) (c : Color)
    (h : colorFromStr str = some c) : c.inRange := by
  unfold colorFromStr at h
  cases hp : parse_color str.toList with
  | none => rw [hp] at h; exact absurd h (by simp)
  | some v => rw [hp] at h; exact toColor_inRange v.2 c h

/-- C3: the range invariant of the Color type. Every Color produced by
`from_rgb`, by `from_hsl`, or by `FromStr` parsing has red, green, blue in
[0,255] and alpha in [0,1]; numeric construction clamps silently and never
rejects (`from_rgb` is total and `from_hsl` always returns a value). -/
theorem color_range_invariant (r g b a hu s l : ℚ) (str : String) (c1 c2 c3 : Color)
    (h1 : Color.from_rgb r g b a = c1)
    (h2 : Color.from_hsl hu s l a = some c2)
    (h3 : colorFromStr str = some c3) :
    c1.inRange ∧ c2.inRange ∧ c3.inRange ∧
      (Color.from_hsl hu s l a).isSome = true :=
  ⟨h1 ▸ from_rgb_inRange r g b a, from_hsl_inRange hu s l a c2 h2,
    colorFromStr_inRange str c3 h3, by
      unfold Color.from_hsl
      simp only [Option.isSome_map']
      exact hsl_to_rgb_isSome hu s l a⟩

/-- C3, witness: the invariant at concrete out-of-range constructions and a
concrete parsed string. -/
theorem color_range_invariant_witness :
    Color.inRange ⟨ColorType.Rgb, 255, 0, 12, 1⟩ ∧
    Color.inRange ⟨ColorType.Hsl, 128, 128, 128, 1⟩ ∧
    Color.inRange ⟨ColorType.Hsl, 255, 255, 255, 1⟩ ∧
    (Color.from_hsl 400 (-3) 50 5).isSome = true :=
  color_range_invariant 300 (-7) 12 5 400 (-3) 50 "hsl(2turn, -24.3, 101%)"
    _ _ _ (by decide) (by decide) (by decide)

theorem hsla_inRange (h s l a : ℚ) : (HslColor.hsla h s l a).inRange :=
  ⟨(rustClamp_mem _ (by norm_num)).1, (rustClamp_mem _ (by norm_num)).2,
   (rustClamp_mem _ (by norm_num)).1, (rustClamp_mem _ (by norm_num)).2,
   (rustClamp_mem _ (by norm_num)).1, (rustClamp_mem _ (by norm_num)).2,
   (rustClamp_mem _ (by norm_num)).1, (rustClamp_mem _ (by norm_num)).2⟩

theorem new_inRange (h s l : ℚ) : (HslColor.new h s l).inRange :=
  ⟨(rustClamp_mem _ (by norm_num)).1, (rustClamp_mem _ (by norm_num)).2,
   (rustClamp_mem _ (by norm_num)).1, (rustClamp_mem _ (by norm_num)).2,
   (rustClamp_mem _ (by norm_num)).1, (rustClamp_mem _ (by norm_num)).2,
   zero_le_one, le_refl 1⟩

/-- C4: parsing "hsl(2turn, -24.3, 101%)" succeeds and yields hue=360 (2 turns
= 720 degrees, clamped to 360), saturation=0 (clamped up from -24.3),
luminosity=100 (clamped down from 101%); and every constructed HslColor has all
of its parsed components clamped into range. -/
theorem parse_clamping_fixture :
    hsl_color "hsl(2turn, -24.3, 101%)".toList =
      some ([], { hue := 360, saturation := 0, luminosity := 100, alpha := 1 }) ∧
    parse_color "hsl(2turn, -24.3, 101%)".toList =
      some ([], OldColor.Hsl { hue := 360, saturation := 0, luminosity := 100, alpha := 1 }) ∧
    (∀ h s l a : ℚ, (HslColor.hsla h s l a).inRange ∧ (HslColor.new h s l).inRange) :=
  ⟨by decide, by decide, fun h s l a => ⟨hsla_inRange h s l a, new_inRange h s l⟩⟩

/-- C5: comma style and space style (with its slash alpha separator) cannot be
mixed inside one color expression: parse("hsl(21deg, 32.2, 32% / 32%)") fails,
hsl_values("354rad 12%, 34") fails, and indeed hsl_values rejects "354rad 12%,"
followed by anything at all. -/
theorem separator_mixing_fails :
    parse_color "hsl(21deg, 32.2, 32% / 32%)".toList = none ∧
    hsl_values "354rad 12%, 34".toList = none ∧
    hsl_values "354rad, 12% 34".toList = none ∧
    (∀ t : List Char, hsl_values ("354rad 12%,".toList ++ t) = none) :=
  ⟨by decide, by decide, by decide, fun t => rfl⟩

/-- C6: the three RGB channels must be uniformly percentages (each scaled to
0–255 via value/100*255) or uniformly bare floats; mixing the two in one call
fails, e.g. "rgb(32%, 2%, 225)". -/
theorem rgb_channel_uniformity :
    parse_color "rgb(32%, 2%, 225)".toList = none ∧
    rgb_values "32%, 2%, 225".toList = none ∧
    rgb_values "32, 2%, 225".toList = none ∧
    rgb_values "32% 11.22% 04%".toList = some ([], (81.6, 28.611, 10.2, none)) ∧
    percentage_to_color_255 32 = 81.6 :=
  ⟨by decide, by decide, by decide, by decide, by decide⟩

/-- C9, counterexample: the source's hue-branch tests are not exact floating
equality. `rgb_to_hsl` (which compares `(cmax - channel).abs() < f32::EPSILON`)
disagrees with the exact-equality selection at red=0, green=10⁻⁵, blue=0,
where 0 < cmax - red < f32::EPSILON: the epsilon test takes the red branch
(hue 60) while exact equality takes the green branch (hue 120). -/
theorem hue_branch_not_exact_counterexample :
    rgb_to_hsl 0 (1 / 100000) 0 1 ≠ rgb_to_hsl_exact 0 (1 / 100000) 0 1 ∧
    rgb_to_hsl 0 (1 / 100000) 0 1 = (60, 100, 0, 1) ∧
    rgb_to_hsl_exact 0 (1 / 100000) 0 1 = (120, 100, 0, 1) :=
  ⟨by decide, by decide, by decide⟩

theorem grid_eps_iff (m n : ℕ) :
    (|(m : ℚ) / 255 - (n : ℚ) / 255| < f32EPSILON) ↔ ((m : ℚ) / 255 = (n : ℚ) / 255) := by
  have habs : |(m : ℚ) / 255 - (n : ℚ) / 255| = |(m : ℚ) - (n : ℚ)| / 255 := by
    rw [div_sub_div_same, abs_div, abs_of_nonneg (by norm_num : (0 : ℚ) ≤ 255)]
  constructor
  · intro hlt
    rw [habs] at hlt
    have hsmall : |(m : ℚ) - (n : ℚ)| < 255 * f32EPSILON := by
      have h255 : (0 : ℚ) < 255 := by norm_num
      calc |(m : ℚ) - (n : ℚ)| = |(m : ℚ) - (n : ℚ)| / 255 * 255 := by field_simp
        _ < f32EPSILON * 255 := by
            exact mul_lt_mul_of_pos_right hlt h255
        _ = 255 * f32EPSILON := mul_comm _ _
    have heq : (m : ℚ) = (n : ℚ) := by
      by_contra hne
      have hz : ((m : ℤ) - (n : ℤ)) ≠ 0 := by
        intro hzero
        apply hne
        have : (m : ℤ) = (n : ℤ) := by omega
        exact_mod_cast this
      have h1 : (1 : ℤ) ≤ |(m : ℤ) - (n : ℤ)| := Int.one_le_abs hz
      have h1q : (1 : ℚ) ≤ |(m : ℚ) - (n : ℚ)| := by exact_mod_cast h1
      have : (255 : ℚ) * f32EPSILON < 1 := by norm_num [f32EPSILON]
      linarith
    rw [heq]
  · intro heq
    rw [habs, show (m : ℚ) - (n : ℚ) = 255 * ((m : ℚ) / 255 - (n : ℚ) / 255) by ring,
      heq]
    norm_num [f32EPSILON]

/-- C9, amended: the hue-branch tests in `src/colors.rs`'s `rgb_to_hsl` use the
epsilon tolerance `(cmax - channel).abs() < f32::EPSILON`, not exact equality
(the `src/lib.rs` variant uses exact `cmax == r`); on every integer RGB triple
in [0,255]³ — all values the u16-channel variant can receive — the two branch
selections coincide, so the whole conversions agree there. -/
theorem hue_branch_epsilon_agrees_on_integers (R G B : ℕ) (a : ℚ)
    (hR : R ≤ 255) (hG : G ≤ 255) (hB : B ≤ 255) :
    rgb_to_hsl (R : ℚ) (G : ℚ) (B : ℚ) a = rgb_to_hsl_exact (R : ℚ) (G : ℚ) (B : ℚ) a := by
  have hc : ∀ n : ℕ, n ≤ 255 → rustClamp (n : ℚ) 0 255 = (n : ℚ) := by
    intro n hn
    have h1 : (n : ℚ) ≤ 255 := by exact_mod_cast hn
    exact rustClamp_eq_self _ (Nat.cast_nonneg n) h1
  have hM : max (max ((R : ℚ) / 255) ((G : ℚ) / 255)) ((B : ℚ) / 255)
      = ((max (max R G) B : ℕ) : ℚ) / 255 := by
    rw [max_div_div_right (by norm_num : (0 : ℚ) ≤ 255),
      max_div_div_right (by norm_num : (0 : ℚ) ≤ 255)]
    push_cast
    rfl
  simp only [rgb_to_hsl, rgb_to_hsl_exact, hc R hR, hc G hG, hc B hB, hM, grid_eps_iff]

/-- C9, witness for the amended agreement: at the integer fixture (23,11,33)
the epsilon-tolerance conversion and the exact-equality conversion coincide. -/
theorem hue_branch_epsilon_agrees_on_integers_witness :
    rgb_to_hsl ((23 : ℕ) : ℚ) ((11 : ℕ) : ℚ) ((33 : ℕ) : ℚ) 1 =
      rgb_to_hsl_exact ((23 : ℕ) : ℚ) ((11 : ℕ) : ℚ) ((33 : ℕ) : ℚ) 1 :=
  hue_branch_epsilon_agrees_on_integers 23 11 33 1 (by norm_num) (by norm_num) (by norm_num)

end ColorRepo
